import Mathlib

/-!
Verification of the request-admission layer of the repository:
the rate-limit middleware (`app/middlewares/rate_limit.py`) and the
error-translation handlers (`app/exceptions.py`, exception classes in
`app/tareas/crud.py`), shallowly embedded in Lean 4.

The counter store (Redis) is modelled by the outcome of the three store
calls a single `dispatch` performs: the atomic increment, the expiry-set
and the TTL read.  Each call either returns a value or raises; a raised
exception is the `raise` constructor.  Time is passed explicitly
(`now`), downstream handling is the response `call_next` would return.
-/

namespace RateLimit

/-- Result of one store call: a returned value, or a raised exception. -/
inductive OpResult (α : Type) where
  | ok : α → OpResult α
  | raise : OpResult α
  deriving Repr, DecidableEq

/-- Behaviour of the counter store during one `dispatch` evaluation.
`incrRes = ok (some n)`: `redis.incr` returned a value convertible to the
integer `n`; `ok none`: it returned a non-convertible value (the code then
forces the count to 1); `raise`: the call raised.  `expireRes` likewise for
`redis.expire` (its returned value is ignored by the code), `ttlRes` for
`redis.ttl` (`ok none`: returned `None` or a non-convertible value). -/
structure StoreBehavior where
  incrRes : OpResult (Option Int)
  expireRes : OpResult Unit
  ttlRes : OpResult (Option Int)
  deriving Repr, DecidableEq

/-- An inbound request: its path, its headers (first match wins on
lookup) and the transport peer address (`request.client.host`),
`none` when the client or its host is unknown. -/
structure Request where
  path : String
  headers : List (String × String)
  clientHost : Option String
  deriving Repr, DecidableEq

/-- `headers.get(name)`: the first header with the given name. -/
def headerGet (hs : List (String × String)) (name : String) : Option String :=
  (hs.find? (fun p => p.1 == name)).map (fun p => p.2)

/-- Python `s.startswith(pre)`: `pre` is a prefix of `s`. -/
def pyStartsWith (s pre : String) : Bool :=
  pre.data.isPrefixOf s.data

/-- Splitting a character list at every comma (Python `s.split(",")`,
no maxsplit): accumulator-based structural recursion. -/
def splitCommaAux : List Char → List Char → List (List Char)
  | [], acc => [acc.reverse]
  | c :: rest, acc =>
    if c = ',' then acc.reverse :: splitCommaAux rest []
    else splitCommaAux rest (c :: acc)

/-- Python `s.split(",")`. -/
def pySplitComma (s : String) : List String :=
  (splitCommaAux s.data []).map String.mk

/-- Drop leading whitespace characters. -/
def dropLeadingWs : List Char → List Char
  | [] => []
  | c :: rest => if c.isWhitespace then dropLeadingWs rest else c :: rest

/-- Python `s.strip()`: remove leading and trailing whitespace. -/
def pyStrip (s : String) : String :=
  String.mk ((dropLeadingWs (dropLeadingWs s.data).reverse).reverse)

/-- `headers.setdefault(name, val)`: add the header only when absent. -/
def setdefault (hs : List (String × String)) (name val : String) :
    List (String × String) :=
  match headerGet hs name with
  | some _ => hs
  | none => hs ++ [(name, val)]

/-- Body of the 429 rejection, the `error` object of the JSON payload. -/
structure ErrorBody where
  code : String
  message : String
  details : String
  resetAt : Int
  deriving Repr, DecidableEq

/-- Response bodies the embedding distinguishes: opaque downstream
content, the rate-limit rejection JSON (its top-level `status` field and
`error` object), and the `{"detail": ...}` bodies of the error handlers. -/
inductive Body where
  | raw : String → Body
  | rateLimitError : String → ErrorBody → Body
  | detail : String → Body
  deriving Repr, DecidableEq

/-- An HTTP response: status code, headers, body. -/
structure Response where
  status : Nat
  headers : List (String × String)
  body : Body
  deriving Repr, DecidableEq

/-- Middleware configuration (`__init__` arguments after coercion). -/
structure Config where
  rateLimit : Int
  timeWindow : Int
  keyPref : String
  exemptPaths : List String
  deriving Repr, DecidableEq

/-- The default exempt path list of `__init__`. -/
def defaultExemptPaths : List String :=
  ["/docs", "/openapi.json", "/healthz", "/static"]

/-- `exempt_paths or [...]`: an absent or empty argument (both falsy in
Python) selects the defaults. -/
def initExemptPaths (arg : Option (List String)) : List String :=
  match arg with
  | some l => if l.isEmpty then defaultExemptPaths else l
  | none => defaultExemptPaths

/-- `_key`: prefix and identifier joined by a colon. -/
def rlKey (cfg : Config) (ident : String) : String :=
  cfg.keyPref ++ ":" ++ ident

/-- `_identifier`: Bearer token, else first `X-Forwarded-For` entry
(Python truthiness: an empty header value falls through), else the peer
address when truthy, else `"unknown"`. -/
def identifier (req : Request) : String :=
  let auth := (headerGet req.headers "Authorization").getD ""
  if pyStartsWith auth "Bearer " then
    "user:" ++ auth.drop 7
  else
    match headerGet req.headers "X-Forwarded-For" with
    | some fwd =>
      if fwd ≠ "" then pyStrip ((pySplitComma fwd).headD "")
      else
        match req.clientHost with
        | some h => if h ≠ "" then h else "unknown"
        | none => "unknown"
    | none =>
      match req.clientHost with
      | some h => if h ≠ "" then h else "unknown"
      | none => "unknown"

/-- `request.url.path.startswith(p)` for some configured exempt p. -/
def isExempt (cfg : Config) (req : Request) : Bool :=
  cfg.exemptPaths.any (fun p => pyStartsWith req.path p)

/-- The store operations a dispatch performed, in order. -/
inductive StoreOp where
  | incr : String → StoreOp
  | expire : String → Int → StoreOp
  | ttlRead : String → StoreOp
  deriving Repr, DecidableEq

/-- What one `dispatch` produced: the response sent to the caller,
whether downstream handling (`call_next`) was invoked, and the store
operations performed. -/
structure DispatchResult where
  response : Response
  calledNext : Bool
  ops : List StoreOp
  deriving Repr, DecidableEq

/-- The 429 rejection response built when `current > rate_limit`. -/
def rejectResponse (cfg : Config) (ttl : Option Int) (now : Int) : Response :=
  let resetTs : Int :=
    now + (match ttl with
           | some t => if t > 0 then t else cfg.timeWindow
           | none => cfg.timeWindow)
  { status := 429
  , headers :=
      [ ("X-RateLimit-Limit", toString cfg.rateLimit)
      , ("X-RateLimit-Remaining", "0")
      , ("X-RateLimit-Reset",
         toString (match ttl with | some t => t | none => cfg.timeWindow)) ]
  , body := Body.rateLimitError "error"
      { code := "RATE_LIMIT_EXCEEDED"
      , message := "Too many requests"
      , details := "Allowed " ++ toString cfg.rateLimit ++ " per "
          ++ toString cfg.timeWindow ++ " seconds"
      , resetAt := resetTs } }

/-- The admitted branch: `setdefault` the three rate-limit headers onto
the downstream response. -/
def attachHeaders (cfg : Config) (current : Int) (ttl : Option Int)
    (resp : Response) : Response :=
  let h1 := setdefault resp.headers "X-RateLimit-Limit" (toString cfg.rateLimit)
  let h2 := setdefault h1 "X-RateLimit-Remaining"
    (toString (max 0 (cfg.rateLimit - current)))
  let h3 := setdefault h2 "X-RateLimit-Reset"
    (toString (match ttl with | some t => t | none => cfg.timeWindow))
  { resp with headers := h3 }

/-- `RedisRateLimitMiddleware.dispatch`.  `store` is the client resolved
by `_redis_from_request` (`none`: not configured), `down` the response
downstream handling returns, `now` the value of `int(time.time())`. -/
def dispatch (cfg : Config) (store : Option StoreBehavior) (req : Request)
    (now : Int) (down : Response) : DispatchResult :=
  if isExempt cfg req then
    { response := down, calledNext := true, ops := [] }
  else
    match store with
    | none => { response := down, calledNext := true, ops := [] }
    | some st =>
      let key := rlKey cfg (identifier req)
      match st.incrRes with
      | OpResult.raise =>
        { response := down, calledNext := true, ops := [StoreOp.incr key] }
      | OpResult.ok v =>
        let current : Int := match v with | some n => n | none => 1
        let expireOps : List StoreOp :=
          if current = 1 then [StoreOp.expire key cfg.timeWindow] else []
        match st.ttlRes with
        | OpResult.raise =>
          { response := down, calledNext := true
          , ops := StoreOp.incr key :: expireOps ++ [StoreOp.ttlRead key] }
        | OpResult.ok ttl =>
          if current > cfg.rateLimit then
            { response := rejectResponse cfg ttl now, calledNext := false
            , ops := StoreOp.incr key :: expireOps ++ [StoreOp.ttlRead key] }
          else
            { response := attachHeaders cfg current ttl down, calledNext := true
            , ops := StoreOp.incr key :: expireOps ++ [StoreOp.ttlRead key] }

/-- Whether an expiry-set operation occurs in an operation trace. -/
def hasExpireOp (ops : List StoreOp) : Bool :=
  ops.any (fun o => match o with | StoreOp.expire _ _ => true | _ => false)

/-- The `reset_at` field when the body is the rejection JSON. -/
def bodyResetAt (b : Body) : Option Int :=
  match b with
  | Body.rateLimitError _ e => some e.resetAt
  | _ => none

/-- The duration added to the current time in `reset_at`:
`ttl if ttl and ttl > 0 else window`. -/
def resetDuration (w : Int) (t : Option Int) : Int :=
  match t with
  | some v => if v > 0 then v else w
  | none => w

/-! Concrete fixtures used by witnesses and counterexamples. -/

/-- Limit 2 per 60 seconds, default exempt paths. -/
def cfg2 : Config :=
  { rateLimit := 2, timeWindow := 60, keyPref := "rl"
  , exemptPaths := defaultExemptPaths }

/-- Limit 1 per 60 seconds. -/
def cfg1 : Config :=
  { rateLimit := 1, timeWindow := 60, keyPref := "rl"
  , exemptPaths := defaultExemptPaths }

/-- Limit 0 per 60 seconds (every counted request is over the limit). -/
def cfg0 : Config :=
  { rateLimit := 0, timeWindow := 60, keyPref := "rl"
  , exemptPaths := defaultExemptPaths }

/-- A non-exempt request identified by its forwarded address. -/
def reqA : Request :=
  { path := "/api/tareas", headers := [("X-Forwarded-For", "1.2.3.4")]
  , clientHost := none }

/-- A request carrying a present but empty `X-Forwarded-For` header. -/
def reqEmptyXff : Request :=
  { path := "/api/x", headers := [("X-Forwarded-For", "")]
  , clientHost := some "9.9.9.9" }

/-- A request with both a Bearer token and a forwarded address. -/
def reqBearer : Request :=
  { path := "/api"
  , headers := [("Authorization", "Bearer tok123"), ("X-Forwarded-For", "5.6.7.8")]
  , clientHost := some "9.9.9.9" }

/-- A plain 200 downstream response with no headers. -/
def downOk : Response :=
  { status := 200, headers := [], body := Body.raw "ok" }

/-- A downstream response that already carries an `X-RateLimit-Limit`
header, to exercise the no-overwrite behaviour of `setdefault`. -/
def downPre : Response :=
  { status := 200, headers := [("X-RateLimit-Limit", "999")]
  , body := Body.raw "ok" }

end RateLimit

namespace Errors

/-- `NotFoundError.__init__` arguments (`message=None` by default). -/
structure NotFoundError where
  resource : String
  identifier : Option String
  messageArg : Option String
  deriving Repr, DecidableEq

/-- Python truthiness of an optional string: present and non-empty. -/
def truthy (o : Option String) : Bool :=
  match o with
  | some s => s ≠ ""
  | none => false

/-- The message `NotFoundError.__init__` stores (`__str__` returns it). -/
def notFoundMessage (e : NotFoundError) : String :=
  match e.messageArg with
  | some m => m
  | none =>
    match e.identifier with
    | some id => if id ≠ "" then e.resource ++ " no encontrada (id=" ++ id ++ ")"
                 else e.resource ++ " no encontrada"
    | none => e.resource ++ " no encontrada"

/-- `NotFoundError.status_code`, fixed by the constructor. -/
def notFoundStatus (_ : NotFoundError) : Nat := 404

/-- `PermissionDeniedError.__init__` arguments. -/
structure PermissionDeniedError where
  resource : String
  identifier : Option String
  action : Option String
  messageArg : Option String
  deriving Repr, DecidableEq

/-- The message `PermissionDeniedError.__init__` stores. -/
def permissionDeniedMessage (e : PermissionDeniedError) : String :=
  match e.messageArg with
  | some m => m
  | none =>
    if truthy e.action && truthy e.identifier then
      "No autorizado para " ++ (e.action.getD "") ++ " " ++ e.resource
        ++ " (id=" ++ (e.identifier.getD "") ++ ")"
    else if truthy e.action then
      "No autorizado para " ++ (e.action.getD "") ++ " " ++ e.resource
    else if truthy e.identifier then
      "No autorizado sobre " ++ e.resource ++ " (id=" ++ (e.identifier.getD "") ++ ")"
    else
      "Permiso denegado"

/-- `PermissionDeniedError.status_code`, fixed by the constructor. -/
def permissionDeniedStatus (_ : PermissionDeniedError) : Nat := 403

/-- `not_found_exception_handler`: JSON 404 with `{"detail": str(exc)}`. -/
def notFoundHandler (e : NotFoundError) : RateLimit.Response :=
  { status := notFoundStatus e
  , headers := []
  , body := RateLimit.Body.detail (notFoundMessage e) }

/-- `permission_denied_exception_handler`: JSON 403 with the message. -/
def permissionDeniedHandler (e : PermissionDeniedError) : RateLimit.Response :=
  { status := permissionDeniedStatus e
  , headers := []
  , body := RateLimit.Body.detail (permissionDeniedMessage e) }

/-- An arbitrary non-domain exception: its type name and text. -/
structure PyException where
  typeName : String
  text : String
  deriving Repr, DecidableEq

/-- `generic_exception_handler`: constant 500 response, the exception is
never inspected. -/
def genericExceptionHandler (_ : PyException) : RateLimit.Response :=
  { status := 500
  , headers := []
  , body := RateLimit.Body.detail "Internal Server Error" }

end Errors

namespace RateLimit

/-! Helper lemmas characterizing `dispatch` and the header operations. -/

lemma headerGet_setdefault_self (hs : List (String × String)) (n v : String) :
    headerGet (setdefault hs n v) n = some ((headerGet hs n).getD v) := by
  unfold setdefault
  cases h : headerGet hs n with
  | some w => simp [h]
  | none =>
    simp only [Option.getD_none]
    unfold headerGet at h ⊢
    rw [List.find?_append]
    simp only [Option.map_eq_none'] at h
    simp [h]

lemma headerGet_setdefault_other (hs : List (String × String)) (n v m : String)
    (hne : m ≠ n) : headerGet (setdefault hs n v) m = headerGet hs m := by
  unfold setdefault
  cases h : headerGet hs n with
  | some w => rfl
  | none =>
    unfold headerGet
    rw [List.find?_append]
    cases hf : List.find? (fun p => p.1 == m) hs with
    | some w => simp [hf]
    | none => simp [hf, Ne.symm hne]

lemma dispatch_exempt (cfg : Config) (store : Option StoreBehavior)
    (req : Request) (now : Int) (down : Response)
    (hex : isExempt cfg req = true) :
    dispatch cfg store req now down =
      { response := down, calledNext := true, ops := [] } := by
  simp [dispatch, hex]

lemma dispatch_no_store (cfg : Config) (req : Request) (now : Int)
    (down : Response) (hex : isExempt cfg req = false) :
    dispatch cfg none req now down =
      { response := down, calledNext := true, ops := [] } := by
  simp [dispatch, hex]

lemma dispatch_incr_raise (cfg : Config) (st : StoreBehavior) (req : Request)
    (now : Int) (down : Response) (hex : isExempt cfg req = false)
    (hincr : st.incrRes = OpResult.raise) :
    dispatch cfg (some st) req now down =
      { response := down, calledNext := true
      , ops := [StoreOp.incr (rlKey cfg (identifier req))] } := by
  simp [dispatch, hex, hincr]

lemma dispatch_ttl_raise (cfg : Config) (st : StoreBehavior) (req : Request)
    (now : Int) (down : Response) (n : Int) (hex : isExempt cfg req = false)
    (hincr : st.incrRes = OpResult.ok (some n))
    (httl : st.ttlRes = OpResult.raise) :
    dispatch cfg (some st) req now down =
      { response := down, calledNext := true
      , ops := StoreOp.incr (rlKey cfg (identifier req)) ::
          (if n = 1 then [StoreOp.expire (rlKey cfg (identifier req)) cfg.timeWindow] else [])
          ++ [StoreOp.ttlRead (rlKey cfg (identifier req))] } := by
  simp [dispatch, hex, hincr, httl]

lemma dispatch_eval (cfg : Config) (st : StoreBehavior) (req : Request)
    (now : Int) (down : Response) (n : Int) (t : Option Int)
    (hex : isExempt cfg req = false)
    (hincr : st.incrRes = OpResult.ok (some n))
    (httl : st.ttlRes = OpResult.ok t) :
    dispatch cfg (some st) req now down =
      (if n > cfg.rateLimit then
        { response := rejectResponse cfg t now, calledNext := false
        , ops := StoreOp.incr (rlKey cfg (identifier req)) ::
            (if n = 1 then [StoreOp.expire (rlKey cfg (identifier req)) cfg.timeWindow] else [])
            ++ [StoreOp.ttlRead (rlKey cfg (identifier req))] }
      else
        { response := attachHeaders cfg n t down, calledNext := true
        , ops := StoreOp.incr (rlKey cfg (identifier req)) ::
            (if n = 1 then [StoreOp.expire (rlKey cfg (identifier req)) cfg.timeWindow] else [])
            ++ [StoreOp.ttlRead (rlKey cfg (identifier req))] }) := by
  simp [dispatch, hex, hincr, httl]

lemma attachHeaders_get (cfg : Config) (n : Int) (t : Option Int)
    (down : Response) :
    headerGet (attachHeaders cfg n t down).headers "X-RateLimit-Limit" =
      some ((headerGet down.headers "X-RateLimit-Limit").getD
        (toString cfg.rateLimit)) ∧
    headerGet (attachHeaders cfg n t down).headers "X-RateLimit-Remaining" =
      some ((headerGet down.headers "X-RateLimit-Remaining").getD
        (toString (max 0 (cfg.rateLimit - n)))) ∧
    headerGet (attachHeaders cfg n t down).headers "X-RateLimit-Reset" =
      some ((headerGet down.headers "X-RateLimit-Reset").getD
        (toString (t.getD cfg.timeWindow))) := by
  simp only [attachHeaders]
  refine ⟨?_, ?_, ?_⟩
  · rw [headerGet_setdefault_other _ _ _ _ (by decide),
      headerGet_setdefault_other _ _ _ _ (by decide),
      headerGet_setdefault_self]
  · rw [headerGet_setdefault_other _ _ _ _ (by decide),
      headerGet_setdefault_self,
      headerGet_setdefault_other _ _ _ _ (by decide)]
  · rw [headerGet_setdefault_self,
      headerGet_setdefault_other _ _ _ _ (by decide),
      headerGet_setdefault_other _ _ _ _ (by decide)]
    cases t <;> rfl

end RateLimit

open RateLimit

/-- C7: a request whose path starts with a configured exempt prefix is
forwarded immediately: the response is exactly the downstream response
(no rate-limit headers added), downstream handling is invoked, and no
store operation is performed. -/
theorem c7_exempt_passthrough (cfg : Config) (store : Option StoreBehavior)
    (req : Request) (now : Int) (down : Response)
    (hex : isExempt cfg req = true) :
    (dispatch cfg store req now down).response = down ∧
    (dispatch cfg store req now down).calledNext = true ∧
    (dispatch cfg store req now down).ops = [] := by
  rw [dispatch_exempt cfg store req now down hex]
  exact ⟨rfl, rfl, rfl⟩

/-- Witness for C7: `/docs` is exempt under the default configuration;
the store is present and would report an over-limit count, yet the
response is the untouched downstream response and no store call happens. -/
theorem c7_exempt_passthrough_w :
    (dispatch cfg2
        (some ⟨OpResult.ok (some 99), OpResult.ok (), OpResult.ok (some 5)⟩)
        { path := "/docs", headers := [], clientHost := none }
        1000 downOk).response = downOk ∧
    (dispatch cfg2
        (some ⟨OpResult.ok (some 99), OpResult.ok (), OpResult.ok (some 5)⟩)
        { path := "/docs", headers := [], clientHost := none }
        1000 downOk).calledNext = true ∧
    (dispatch cfg2
        (some ⟨OpResult.ok (some 99), OpResult.ok (), OpResult.ok (some 5)⟩)
        { path := "/docs", headers := [], clientHost := none }
        1000 downOk).ops = [] :=
  c7_exempt_passthrough cfg2
    (some ⟨OpResult.ok (some 99), OpResult.ok (), OpResult.ok (some 5)⟩)
    { path := "/docs", headers := [], clientHost := none }
    1000 downOk (by decide)

/-- C9: the catch-all handler returns HTTP 500 with exactly the body
`{"detail": "Internal Server Error"}` for every exception, independent
of the exception's type and text. -/
theorem c9_generic_handler_constant :
    ∀ e : Errors.PyException,
      Errors.genericExceptionHandler e =
        { status := 500, headers := []
        , body := Body.detail "Internal Server Error" } ∧
      ∀ e' : Errors.PyException,
        Errors.genericExceptionHandler e = Errors.genericExceptionHandler e' :=
  fun _ => ⟨rfl, fun _ => rfl⟩

/-- C5: during one evaluation the expiry-set operation is performed
exactly when the atomic increment returned the count 1 (the increment
that created the key); an increment returning any other integer count,
or raising, never leads to a set-expiry call. -/
theorem c5_expire_only_on_creation (cfg : Config) (st : StoreBehavior)
    (req : Request) (now : Int) (down : Response) (n : Int)
    (hex : isExempt cfg req = false) :
    (st.incrRes = OpResult.ok (some n) →
      (hasExpireOp (dispatch cfg (some st) req now down).ops = true ↔ n = 1)) ∧
    (st.incrRes = OpResult.raise →
      hasExpireOp (dispatch cfg (some st) req now down).ops = false) := by
  constructor
  · intro hincr
    cases httl : st.ttlRes with
    | raise =>
      rw [dispatch_ttl_raise cfg st req now down n hex hincr httl]
      by_cases h1 : n = 1 <;> simp [hasExpireOp, h1]
    | ok t =>
      rw [dispatch_eval cfg st req now down n t hex hincr httl]
      split <;> by_cases h1 : n = 1 <;> simp [hasExpireOp, h1]
  · intro hincr
    rw [dispatch_incr_raise cfg st req now down hex hincr]
    simp [hasExpireOp]

/-- Witness for C5: an increment returning 1 arms the TTL, and an
increment returning 2 does not. -/
theorem c5_expire_only_on_creation_w :
    hasExpireOp (dispatch cfg2
      (some ⟨OpResult.ok (some 1), OpResult.ok (), OpResult.ok (some 60)⟩)
      reqA 1000 downOk).ops = true ∧
    hasExpireOp (dispatch cfg2
      (some ⟨OpResult.ok (some 2), OpResult.ok (), OpResult.ok (some 30)⟩)
      reqA 1000 downOk).ops = false := by
  constructor
  · exact ((c5_expire_only_on_creation cfg2
      ⟨OpResult.ok (some 1), OpResult.ok (), OpResult.ok (some 60)⟩
      reqA 1000 downOk 1 (by decide)).1 rfl).mpr rfl
  · have h := ((c5_expire_only_on_creation cfg2
      ⟨OpResult.ok (some 2), OpResult.ok (), OpResult.ok (some 30)⟩
      reqA 1000 downOk 2 (by decide)).1 rfl)
    have h2 : ¬ ((2 : Int) = 1) := by decide
    exact Bool.eq_false_iff.mpr (fun hh => h2 (h.mp hh))

/-- C8: the NotFound handler produces status 404 and body
`{"detail": "<resource> no encontrada (id=<identifier>)"}` for the
default message with an identifier, and the PermissionDenied handler
produces status 403 and body
`{"detail": "No autorizado para <action> <resource> (id=<identifier>)"}`
for the default message with an action and an identifier. -/
theorem c8_domain_error_translation (resource id act : String)
    (hid : id ≠ "") (hact : act ≠ "") :
    Errors.notFoundHandler ⟨resource, some id, none⟩ =
      { status := 404, headers := []
      , body := Body.detail (resource ++ " no encontrada (id=" ++ id ++ ")") } ∧
    Errors.permissionDeniedHandler ⟨resource, some id, some act, none⟩ =
      { status := 403, headers := []
      , body := Body.detail ("No autorizado para " ++ act ++ " " ++ resource
          ++ " (id=" ++ id ++ ")") } := by
  constructor
  · simp [Errors.notFoundHandler, Errors.notFoundMessage, Errors.notFoundStatus, hid]
  · simp [Errors.permissionDeniedHandler, Errors.permissionDeniedMessage,
      Errors.permissionDeniedStatus, Errors.truthy, hid, hact]

/-- Witness for C8: the spec scenario, a Tarea with id `abc` and the
action `actualizar`. -/
theorem c8_domain_error_translation_w :
    Errors.notFoundHandler ⟨"Tarea", some "abc", none⟩ =
      { status := 404, headers := []
      , body := Body.detail "Tarea no encontrada (id=abc)" } ∧
    Errors.permissionDeniedHandler ⟨"Tarea", some "abc", some "actualizar", none⟩ =
      { status := 403, headers := []
      , body := Body.detail "No autorizado para actualizar Tarea (id=abc)" } := by
  have h := c8_domain_error_translation "Tarea" "abc" "actualizar"
    (by decide) (by decide)
  simpa using h

/-- C1 counterexample: the increment succeeds and yields a count above
the limit (5 > 1), the request is not exempt, yet because the TTL read
raises, `dispatch` forwards the request instead of short-circuiting with
429 — refuting the claim that a successful over-limit increment alone
guarantees rejection. -/
theorem c1_counterexample :
    (⟨OpResult.ok (some 5), OpResult.ok (), OpResult.raise⟩ :
        StoreBehavior).incrRes = OpResult.ok (some 5) ∧
    isExempt cfg1 reqA = false ∧
    (5 : Int) > cfg1.rateLimit ∧
    (dispatch cfg1
      (some ⟨OpResult.ok (some 5), OpResult.ok (), OpResult.raise⟩)
      reqA 1000 downOk).calledNext = true ∧
    (dispatch cfg1
      (some ⟨OpResult.ok (some 5), OpResult.ok (), OpResult.raise⟩)
      reqA 1000 downOk).response.status = 200 := by
  refine ⟨rfl, by decide, by decide, rfl, rfl⟩

/-- C1 (amended): when the increment succeeds with count `n > limit`
AND the subsequent TTL read also returns (rather than raising), the
middleware short-circuits: downstream is not invoked, the response is
HTTP 429 with headers `X-RateLimit-Limit = limit`,
`X-RateLimit-Remaining = 0`, `X-RateLimit-Reset`, and the JSON body
`{"status":"error","error":{"code":"RATE_LIMIT_EXCEEDED","message":"Too
many requests","details":"Allowed <limit> per <window> seconds",
"reset_at": now + (ttl if ttl > 0 else window)}}`; conversely a count
`n <= limit` is never rejected (downstream is always invoked). -/
theorem c1_over_limit_rejection (cfg : Config) (st : StoreBehavior)
    (req : Request) (now : Int) (down : Response) (n : Int)
    (hex : isExempt cfg req = false)
    (hincr : st.incrRes = OpResult.ok (some n)) :
    (∀ t, st.ttlRes = OpResult.ok t → n > cfg.rateLimit →
      (dispatch cfg (some st) req now down).calledNext = false ∧
      (dispatch cfg (some st) req now down).response.status = 429 ∧
      headerGet (dispatch cfg (some st) req now down).response.headers
        "X-RateLimit-Limit" = some (toString cfg.rateLimit) ∧
      headerGet (dispatch cfg (some st) req now down).response.headers
        "X-RateLimit-Remaining" = some "0" ∧
      headerGet (dispatch cfg (some st) req now down).response.headers
        "X-RateLimit-Reset" = some (toString (t.getD cfg.timeWindow)) ∧
      (dispatch cfg (some st) req now down).response.body =
        Body.rateLimitError "error"
          { code := "RATE_LIMIT_EXCEEDED"
          , message := "Too many requests"
          , details := "Allowed " ++ toString cfg.rateLimit ++ " per "
              ++ toString cfg.timeWindow ++ " seconds"
          , resetAt := now + (match t with
              | some v => if v > 0 then v else cfg.timeWindow
              | none => cfg.timeWindow) }) ∧
    (n ≤ cfg.rateLimit →
      (dispatch cfg (some st) req now down).calledNext = true) := by
  constructor
  · intro t httl hgt
    rw [dispatch_eval cfg st req now down n t hex hincr httl, if_pos hgt]
    refine ⟨rfl, rfl, rfl, rfl, ?_, rfl⟩
    cases t <;> rfl
  · intro hle
    cases httl : st.ttlRes with
    | raise =>
      rw [dispatch_ttl_raise cfg st req now down n hex hincr httl]
    | ok t =>
      rw [dispatch_eval cfg st req now down n t hex hincr httl,
        if_neg (not_lt.mpr hle)]

/-- Witness for C1 (amended): limit 1, count 5, ttl 42, now 1000 — the
rejection has the exact literal headers and body. -/
theorem c1_over_limit_rejection_w :
    (dispatch cfg1
      (some ⟨OpResult.ok (some 5), OpResult.ok (), OpResult.ok (some 42)⟩)
      reqA 1000 downOk).calledNext = false ∧
    (dispatch cfg1
      (some ⟨OpResult.ok (some 5), OpResult.ok (), OpResult.ok (some 42)⟩)
      reqA 1000 downOk).response.status = 429 ∧
    headerGet (dispatch cfg1
      (some ⟨OpResult.ok (some 5), OpResult.ok (), OpResult.ok (some 42)⟩)
      reqA 1000 downOk).response.headers "X-RateLimit-Limit" = some "1" ∧
    headerGet (dispatch cfg1
      (some ⟨OpResult.ok (some 5), OpResult.ok (), OpResult.ok (some 42)⟩)
      reqA 1000 downOk).response.headers "X-RateLimit-Remaining" = some "0" ∧
    headerGet (dispatch cfg1
      (some ⟨OpResult.ok (some 5), OpResult.ok (), OpResult.ok (some 42)⟩)
      reqA 1000 downOk).response.headers "X-RateLimit-Reset" = some "42" ∧
    (dispatch cfg1
      (some ⟨OpResult.ok (some 5), OpResult.ok (), OpResult.ok (some 42)⟩)
      reqA 1000 downOk).response.body =
      Body.rateLimitError "error"
        { code := "RATE_LIMIT_EXCEEDED", message := "Too many requests"
        , details := "Allowed 1 per 60 seconds", resetAt := 1042 } := by
  have h := (c1_over_limit_rejection cfg1
    ⟨OpResult.ok (some 5), OpResult.ok (), OpResult.ok (some 42)⟩
    reqA 1000 downOk 5 (by decide) rfl).1 (some 42) rfl (by decide)
  exact ⟨h.1, h.2.1, h.2.2.1, h.2.2.2.1, h.2.2.2.2.1, h.2.2.2.2.2⟩

/-- C2 counterexample: an admitted count (1 <= 2) whose evaluation ends
with a raising TTL read is forwarded WITHOUT any rate-limit header —
refuting the claim that every admitted (count <= limit) request carries
the headers. -/
theorem c2_counterexample :
    (⟨OpResult.ok (some 1), OpResult.ok (), OpResult.raise⟩ :
        StoreBehavior).incrRes = OpResult.ok (some 1) ∧
    isExempt cfg2 reqA = false ∧
    (1 : Int) ≤ cfg2.rateLimit ∧
    (dispatch cfg2
      (some ⟨OpResult.ok (some 1), OpResult.ok (), OpResult.raise⟩)
      reqA 1000 downOk).calledNext = true ∧
    headerGet (dispatch cfg2
      (some ⟨OpResult.ok (some 1), OpResult.ok (), OpResult.raise⟩)
      reqA 1000 downOk).response.headers "X-RateLimit-Limit" = none := by
  refine ⟨rfl, by decide, by decide, rfl, rfl⟩

/-- C2 (amended): when the increment succeeds with count `n <= limit`
AND the TTL read also returns, the request is forwarded downstream and
the returned response carries `X-RateLimit-Limit = limit`,
`X-RateLimit-Remaining = max(0, limit - n)` and `X-RateLimit-Reset`,
each attached only when not already set on the downstream response
(an already-present value is preserved). -/
theorem c2_admitted_attach_headers (cfg : Config) (st : StoreBehavior)
    (req : Request) (now : Int) (down : Response) (n : Int) (t : Option Int)
    (hex : isExempt cfg req = false)
    (hincr : st.incrRes = OpResult.ok (some n))
    (httl : st.ttlRes = OpResult.ok t)
    (hle : n ≤ cfg.rateLimit) :
    (dispatch cfg (some st) req now down).calledNext = true ∧
    (dispatch cfg (some st) req now down).response.status = down.status ∧
    (dispatch cfg (some st) req now down).response.body = down.body ∧
    headerGet (dispatch cfg (some st) req now down).response.headers
      "X-RateLimit-Limit" =
      some ((headerGet down.headers "X-RateLimit-Limit").getD
        (toString cfg.rateLimit)) ∧
    headerGet (dispatch cfg (some st) req now down).response.headers
      "X-RateLimit-Remaining" =
      some ((headerGet down.headers "X-RateLimit-Remaining").getD
        (toString (max 0 (cfg.rateLimit - n)))) ∧
    headerGet (dispatch cfg (some st) req now down).response.headers
      "X-RateLimit-Reset" =
      some ((headerGet down.headers "X-RateLimit-Reset").getD
        (toString (t.getD cfg.timeWindow))) := by
  rw [dispatch_eval cfg st req now down n t hex hincr httl,
    if_neg (not_lt.mpr hle)]
  have h := attachHeaders_get cfg n t down
  exact ⟨rfl, rfl, rfl, h.1, h.2.1, h.2.2⟩

/-- Witness for C2 (amended): count 1 of limit 2, ttl 45; the downstream
response already carries `X-RateLimit-Limit: 999`, which is preserved,
and the missing two headers are attached. -/
theorem c2_admitted_attach_headers_w :
    (dispatch cfg2
      (some ⟨OpResult.ok (some 1), OpResult.ok (), OpResult.ok (some 45)⟩)
      reqA 1000 downPre).calledNext = true ∧
    (dispatch cfg2
      (some ⟨OpResult.ok (some 1), OpResult.ok (), OpResult.ok (some 45)⟩)
      reqA 1000 downPre).response.status = 200 ∧
    (dispatch cfg2
      (some ⟨OpResult.ok (some 1), OpResult.ok (), OpResult.ok (some 45)⟩)
      reqA 1000 downPre).response.body = Body.raw "ok" ∧
    headerGet (dispatch cfg2
      (some ⟨OpResult.ok (some 1), OpResult.ok (), OpResult.ok (some 45)⟩)
      reqA 1000 downPre).response.headers "X-RateLimit-Limit" = some "999" ∧
    headerGet (dispatch cfg2
      (some ⟨OpResult.ok (some 1), OpResult.ok (), OpResult.ok (some 45)⟩)
      reqA 1000 downPre).response.headers "X-RateLimit-Remaining" = some "1" ∧
    headerGet (dispatch cfg2
      (some ⟨OpResult.ok (some 1), OpResult.ok (), OpResult.ok (some 45)⟩)
      reqA 1000 downPre).response.headers "X-RateLimit-Reset" = some "45" := by
  have h := c2_admitted_attach_headers cfg2
    ⟨OpResult.ok (some 1), OpResult.ok (), OpResult.ok (some 45)⟩
    reqA 1000 downPre 1 (some 45) (by decide) rfl rfl (by decide)
  exact ⟨h.1, h.2.1, h.2.2.1, h.2.2.2.1, h.2.2.2.2.1, h.2.2.2.2.2⟩

/-- C3 counterexample: a request carrying an `X-Forwarded-For` header
whose value is the empty string (present, but falsy in Python) and no
Authorization header resolves to the peer address `9.9.9.9`, not to the
trimmed first comma-separated entry of the header (which is `""`) —
refuting the claimed precedence for every present `X-Forwarded-For`. -/
theorem c3_counterexample :
    headerGet reqEmptyXff.headers "X-Forwarded-For" = some "" ∧
    headerGet reqEmptyXff.headers "Authorization" = none ∧
    pyStrip ((pySplitComma "").headD "") = "" ∧
    identifier reqEmptyXff = "9.9.9.9" := by
  refine ⟨rfl, rfl, rfl, rfl⟩

/-- C3 (amended): identifier resolution is a total function of request
metadata with precedence: a `Bearer ` Authorization header yields
`"user:" + token` (even when `X-Forwarded-For` is present); otherwise a
present AND NON-EMPTY `X-Forwarded-For` yields its first comma-separated
entry stripped of whitespace; otherwise a known non-empty peer address;
otherwise the literal `"unknown"`. -/
theorem c3_identifier_precedence (req : Request) :
    (pyStartsWith ((headerGet req.headers "Authorization").getD "")
        "Bearer " = true →
      identifier req =
        "user:" ++ ((headerGet req.headers "Authorization").getD "").drop 7) ∧
    (pyStartsWith ((headerGet req.headers "Authorization").getD "")
        "Bearer " = false →
      ∀ f, headerGet req.headers "X-Forwarded-For" = some f → f ≠ "" →
        identifier req = pyStrip ((pySplitComma f).headD "")) ∧
    (pyStartsWith ((headerGet req.headers "Authorization").getD "")
        "Bearer " = false →
      (headerGet req.headers "X-Forwarded-For" = none ∨
        headerGet req.headers "X-Forwarded-For" = some "") →
      ∀ h, req.clientHost = some h → h ≠ "" → identifier req = h) ∧
    (pyStartsWith ((headerGet req.headers "Authorization").getD "")
        "Bearer " = false →
      (headerGet req.headers "X-Forwarded-For" = none ∨
        headerGet req.headers "X-Forwarded-For" = some "") →
      (req.clientHost = none ∨ req.clientHost = some "") →
      identifier req = "unknown") := by
  refine ⟨?_, ?_, ?_, ?_⟩
  · intro hb
    simp [identifier, hb]
  · intro hb f hf hfne
    simp [identifier, hb, hf, hfne]
  · intro hb hx h hch hhne
    rcases hx with hx | hx <;> simp [identifier, hb, hx, hch, hhne]
  · intro hb hx hch
    rcases hx with hx | hx <;> rcases hch with hch | hch <;>
      simp [identifier, hb, hx, hch]

/-- Witness for C3 (amended): with both a Bearer token and a non-empty
`X-Forwarded-For`, the Bearer-derived identifier wins. -/
theorem c3_identifier_precedence_w :
    identifier reqBearer = "user:tok123" := by
  have h := (c3_identifier_precedence reqBearer).1 (by decide)
  exact h.trans (by decide)

/-- C4 counterexample: a store operation (the expiry-set) raises during
evaluation, yet the request is NOT forwarded: with limit 0 the count 1
is over the limit and `dispatch` still returns a 429 rejection, because
the code swallows expiry-set failures and continues — refuting the
claim that ANY raising store operation leads to fail-open forwarding. -/
theorem c4_counterexample :
    (⟨OpResult.ok (some 1), OpResult.raise, OpResult.ok (some 30)⟩ :
        StoreBehavior).expireRes = OpResult.raise ∧
    isExempt cfg0 reqA = false ∧
    (dispatch cfg0
      (some ⟨OpResult.ok (some 1), OpResult.raise, OpResult.ok (some 30)⟩)
      reqA 1000 downOk).response.status = 429 ∧
    (dispatch cfg0
      (some ⟨OpResult.ok (some 1), OpResult.raise, OpResult.ok (some 30)⟩)
      reqA 1000 downOk).calledNext = false := by
  refine ⟨rfl, by decide, rfl, rfl⟩

/-- C4 (amended): fail-open holds for the absent store and for raising
increment or TTL read — in each of these cases the non-exempt request
is forwarded with the downstream response returned unmodified and no
429 produced (`dispatch` is total, so no store error ever propagates);
a raising expiry-set, by contrast, is swallowed and evaluation
continues (see the counterexample). -/
theorem c4_fail_open (cfg : Config) (st : StoreBehavior) (req : Request)
    (now : Int) (down : Response) (hex : isExempt cfg req = false) :
    ((dispatch cfg none req now down).response = down ∧
      (dispatch cfg none req now down).calledNext = true ∧
      (dispatch cfg none req now down).ops = []) ∧
    (st.incrRes = OpResult.raise →
      (dispatch cfg (some st) req now down).response = down ∧
      (dispatch cfg (some st) req now down).calledNext = true) ∧
    (st.ttlRes = OpResult.raise →
      (dispatch cfg (some st) req now down).response = down ∧
      (dispatch cfg (some st) req now down).calledNext = true) := by
  refine ⟨?_, ?_, ?_⟩
  · rw [dispatch_no_store cfg req now down hex]
    exact ⟨rfl, rfl, rfl⟩
  · intro hincr
    rw [dispatch_incr_raise cfg st req now down hex hincr]
    exact ⟨rfl, rfl⟩
  · intro httl
    cases hincr : st.incrRes with
    | raise =>
      rw [dispatch_incr_raise cfg st req now down hex hincr]
      exact ⟨rfl, rfl⟩
    | ok v =>
      cases v with
      | some n =>
        rw [dispatch_ttl_raise cfg st req now down n hex hincr httl]
        exact ⟨rfl, rfl⟩
      | none =>
        simp [dispatch, hex, hincr, httl]

/-- Witness for C4 (amended): a raising TTL read on a non-exempt
request forwards the untouched downstream response. -/
theorem c4_fail_open_w :
    (dispatch cfg2
      (some ⟨OpResult.ok (some 1), OpResult.ok (), OpResult.raise⟩)
      reqA 1000 downOk).response = downOk ∧
    (dispatch cfg2
      (some ⟨OpResult.ok (some 1), OpResult.ok (), OpResult.raise⟩)
      reqA 1000 downOk).calledNext = true :=
  (c4_fail_open cfg2 ⟨OpResult.ok (some 1), OpResult.ok (), OpResult.raise⟩
    reqA 1000 downOk (by decide)).2.2 rfl

/-- C6 counterexample: the increment succeeds with count 5 over limit 2
but the TTL read raises; the claim says the evaluation still completes
and produces the (reject) decision with reset treated as window seconds
from now, yet the code aborts the decision and forwards the untouched
downstream response (no 429, no headers). -/
theorem c6_counterexample :
    (⟨OpResult.ok (some 5), OpResult.ok (), OpResult.raise⟩ :
        StoreBehavior).ttlRes = OpResult.raise ∧
    isExempt cfg2 reqA = false ∧
    (5 : Int) > cfg2.rateLimit ∧
    (dispatch cfg2
      (some ⟨OpResult.ok (some 5), OpResult.ok (), OpResult.raise⟩)
      reqA 1000 downOk).response = downOk ∧
    (dispatch cfg2
      (some ⟨OpResult.ok (some 5), OpResult.ok (), OpResult.raise⟩)
      reqA 1000 downOk).calledNext = true := by
  refine ⟨rfl, by decide, by decide, rfl, rfl⟩

/-- C6 (amended): after a successful increment, if the TTL read RETURNS
no usable value (`None` or a non-integer), the evaluation completes and
produces the admit/reject decision with the reset treated as
window_seconds from now: over the limit the rejection carries
`reset_at = now + window` and reset header `window`; within the limit
the request is admitted with reset header `window` (when not already
set downstream).  A RAISING TTL read instead aborts the decision
(fail-open, see the counterexample). -/
theorem c6_ttl_missing_best_effort (cfg : Config) (st : StoreBehavior)
    (req : Request) (now : Int) (down : Response) (n : Int)
    (hex : isExempt cfg req = false)
    (hincr : st.incrRes = OpResult.ok (some n))
    (httl : st.ttlRes = OpResult.ok none) :
    (n > cfg.rateLimit →
      (dispatch cfg (some st) req now down).calledNext = false ∧
      (dispatch cfg (some st) req now down).response.status = 429 ∧
      bodyResetAt (dispatch cfg (some st) req now down).response.body =
        some (now + cfg.timeWindow) ∧
      headerGet (dispatch cfg (some st) req now down).response.headers
        "X-RateLimit-Reset" = some (toString cfg.timeWindow)) ∧
    (n ≤ cfg.rateLimit →
      (dispatch cfg (some st) req now down).calledNext = true ∧
      headerGet (dispatch cfg (some st) req now down).response.headers
        "X-RateLimit-Reset" =
        some ((headerGet down.headers "X-RateLimit-Reset").getD
          (toString cfg.timeWindow))) := by
  constructor
  · intro hgt
    rw [dispatch_eval cfg st req now down n none hex hincr httl, if_pos hgt]
    exact ⟨rfl, rfl, rfl, rfl⟩
  · intro hle
    rw [dispatch_eval cfg st req now down n none hex hincr httl,
      if_neg (not_lt.mpr hle)]
    exact ⟨rfl, (attachHeaders_get cfg n none down).2.2⟩

/-- Witness for C6 (amended): count 5 over limit 1 with a TTL read that
returns `None`; the rejection resets at `1000 + 60` with header `60`. -/
theorem c6_ttl_missing_best_effort_w :
    (dispatch cfg1
      (some ⟨OpResult.ok (some 5), OpResult.ok (), OpResult.ok none⟩)
      reqA 1000 downOk).calledNext = false ∧
    (dispatch cfg1
      (some ⟨OpResult.ok (some 5), OpResult.ok (), OpResult.ok none⟩)
      reqA 1000 downOk).response.status = 429 ∧
    bodyResetAt (dispatch cfg1
      (some ⟨OpResult.ok (some 5), OpResult.ok (), OpResult.ok none⟩)
      reqA 1000 downOk).response.body = some 1060 ∧
    headerGet (dispatch cfg1
      (some ⟨OpResult.ok (some 5), OpResult.ok (), OpResult.ok none⟩)
      reqA 1000 downOk).response.headers "X-RateLimit-Reset" = some "60" := by
  have h := (c6_ttl_missing_best_effort cfg1
    ⟨OpResult.ok (some 5), OpResult.ok (), OpResult.ok none⟩
    reqA 1000 downOk 5 (by decide) rfl rfl).1 (by decide)
  exact ⟨h.1, h.2.1, h.2.2.1, h.2.2.2⟩

/-- C10: on every response produced from a completed evaluation the
rate-limit headers are independent of the current time — in particular
`X-RateLimit-Reset` holds the raw remaining TTL (or window_seconds when
the TTL is unknown), a relative duration, never an absolute timestamp —
while the `reset_at` field inside the 429 JSON body is the absolute time
`now + (ttl if ttl > 0 else window_seconds)`; admitted responses carry
no `reset_at` body field at all. -/
theorem c10_reset_header_is_duration (cfg : Config) (st : StoreBehavior)
    (req : Request) (down : Response) (n : Int) (t : Option Int)
    (hex : isExempt cfg req = false)
    (hincr : st.incrRes = OpResult.ok (some n))
    (httl : st.ttlRes = OpResult.ok t) :
    (∀ now now2 : Int,
      (dispatch cfg (some st) req now down).response.headers =
      (dispatch cfg (some st) req now2 down).response.headers) ∧
    (∀ now : Int, n > cfg.rateLimit →
      headerGet (dispatch cfg (some st) req now down).response.headers
        "X-RateLimit-Reset" = some (toString (t.getD cfg.timeWindow)) ∧
      bodyResetAt (dispatch cfg (some st) req now down).response.body =
        some (now + resetDuration cfg.timeWindow t)) ∧
    (∀ now : Int, n ≤ cfg.rateLimit →
      headerGet (dispatch cfg (some st) req now down).response.headers
        "X-RateLimit-Reset" =
        some ((headerGet down.headers "X-RateLimit-Reset").getD
          (toString (t.getD cfg.timeWindow))) ∧
      bodyResetAt (dispatch cfg (some st) req now down).response.body =
        bodyResetAt down.body) := by
  refine ⟨?_, ?_, ?_⟩
  · intro now now2
    rw [dispatch_eval cfg st req now down n t hex hincr httl,
      dispatch_eval cfg st req now2 down n t hex hincr httl]
    by_cases hgt : n > cfg.rateLimit
    · rw [if_pos hgt, if_pos hgt]
      rfl
    · rw [if_neg hgt, if_neg hgt]
  · intro now hgt
    rw [dispatch_eval cfg st req now down n t hex hincr httl, if_pos hgt]
    cases t <;> exact ⟨rfl, rfl⟩
  · intro now hle
    rw [dispatch_eval cfg st req now down n t hex hincr httl,
      if_neg (not_lt.mpr hle)]
    exact ⟨(attachHeaders_get cfg n t down).2.2, rfl⟩

/-- Witness for C10: ttl read returns 0 with count 7 over limit 2: the
reset header is the raw duration `0` for any `now`, while the body's
`reset_at` is the absolute `5000 + 60` (window fallback since the ttl
is not positive). -/
theorem c10_reset_header_is_duration_w :
    (dispatch cfg2
      (some ⟨OpResult.ok (some 7), OpResult.ok (), OpResult.ok (some 0)⟩)
      reqA 5000 downOk).response.headers =
    (dispatch cfg2
      (some ⟨OpResult.ok (some 7), OpResult.ok (), OpResult.ok (some 0)⟩)
      reqA 9999 downOk).response.headers ∧
    headerGet (dispatch cfg2
      (some ⟨OpResult.ok (some 7), OpResult.ok (), OpResult.ok (some 0)⟩)
      reqA 5000 downOk).response.headers "X-RateLimit-Reset" = some "0" ∧
    bodyResetAt (dispatch cfg2
      (some ⟨OpResult.ok (some 7), OpResult.ok (), OpResult.ok (some 0)⟩)
      reqA 5000 downOk).response.body = some 5060 := by
  have h := c10_reset_header_is_duration cfg2
    ⟨OpResult.ok (some 7), OpResult.ok (), OpResult.ok (some 0)⟩
    reqA downOk 7 (some 0) (by decide) rfl rfl
  exact ⟨h.1 5000 9999, (h.2.1 5000 (by decide)).1, (h.2.1 5000 (by decide)).2⟩
